import Mathlib

/-!
Verification of the network-adapter reconciliation engine of
`lib/ansible/modules/cloud/vmware/vmware_guest_network.py`.

The Python module is shallowly embedded below.  Backend-facing calls
(`find_obj`-based network lookup, `ReconfigVM_Task`, `wait_for_task`,
the refreshed device view after a successful task) are external
collaborators; they are modelled as explicit inputs (`Env` / `RunEnv`).
`module.fail_json` terminates the run, so it is modelled as the error
arm of `Except`; a Python `KeyError` raised while building a failure
message is a distinct error arm.  pyVmomi device objects are mutable and
shared; they are modelled as a positionally indexed list threaded through
the planner, with a `DeviceSpec` holding the index of the device it
references.
-/

namespace VmwareGuestNetwork

/-- Keys of `PyVmomiHelper.nic_device_type`, in dict insertion order. -/
def nicTypeKeys : List String := ["pcnet32", "vmxnet2", "vmxnet3", "e1000", "e1000e", "sriov"]

/-- Valid `state` keywords accepted by `sanitize_network_params`. -/
def nicValidStates : List String := ["new", "present", "absent"]

/-- ASCII lowercase of one character, as `str.lower` acts on the ASCII
range (the only range relevant to the state keywords compared below). -/
def pyLowerChar (c : Char) : Char :=
  if 'A' ≤ c && c ≤ 'Z' then Char.ofNat (c.toNat + 32) else c

/-- `str.lower`, modelled over the ASCII range. -/
def pyLower (s : String) : String := String.mk (s.data.map pyLowerChar)

/-- One virtual network adapter as read from `vm.config.hardware.device`.
`deviceType` is the tag naming the pyVmomi device class; a tag outside
`nicTypeKeys` models a non-network device in the hardware list. -/
structure Adapter where
  macAddress : String
  label : String
  deviceType : String
  summary : String
  connected : Bool
  startConnected : Bool
  addressType : String
  unitNumber : Int
  wakeOnLanEnabled : Bool
  allowGuestControl : Bool
deriving DecidableEq, Repr

/-- One element of the `networks` module parameter (a loosely-typed dict);
absent keys are `none`.  `vlan` holds the parameter value in its string
rendering, as the code only uses it through `str(...)` and `==`. -/
structure NetworkParam where
  state : Option String := none
  name : Option String := none
  vlan : Option String := none
  dvswitch_name : Option String := none
  device_type : Option String := none
  mac : Option String := none
  label : Option String := none
  manual_mac : Option String := none
  connected : Option Bool := none
  start_connected : Option Bool := none
deriving DecidableEq, Repr

/-- The distinct `fail_json` messages of the module, structured. -/
inductive FailMsg where
  | invalidState (given : String)
  | missingNetworkName
  | networkNotExist (name : String)
  | vlanNotExist (vlan : String)
  | invalidDeviceType (given : String)
  | invalidMacValue (mac : String) (manualMac : String)
  | invalidNicType (given : String)
  | missingMatchKey
  | adapterNotFound (entry : NetworkParam)
  | powerStateNotOff
  | invalidDeviceSpecFault (m : String)
  | restrictedVersionFault (m : String)
deriving DecidableEq, Repr

/-- How a run terminates abnormally: a structured `module.fail_json`, or a
Python `KeyError` raised by an unconditional dict access. -/
inductive PyError where
  | keyError (key : String)
  | failJson (msg : FailMsg)
deriving DecidableEq, Repr

/-- Lowercase hexadecimal digit, the character class `[0-9a-f]` of
`is_valid_mac_addr`. -/
def isHexDigitLower (c : Char) : Bool := c.isDigit || ('a' ≤ c && c ≤ 'f')

/-- The capturing group `([-:])` of the MAC regex. -/
def isMacDelim (c : Char) : Bool := c == '-' || c == ':'

/-- Matches `[0-9a-f]{2}([-:])[0-9a-f]{2}(\1[0-9a-f]{2}){4}` against the
whole character list: 17 characters, six lowercase-hex octets joined by
one repeated delimiter. -/
def macCoreMatches : List Char → Bool
  | [a1, a2, d1, b1, b2, d2, c1, c2, d3, e1, e2, d4, f1, f2, d5, g1, g2] =>
    isHexDigitLower a1 && isHexDigitLower a2 && isMacDelim d1 &&
    isHexDigitLower b1 && isHexDigitLower b2 && d2 == d1 &&
    isHexDigitLower c1 && isHexDigitLower c2 && d3 == d1 &&
    isHexDigitLower e1 && isHexDigitLower e2 && d4 == d1 &&
    isHexDigitLower f1 && isHexDigitLower f2 && d5 == d1 &&
    isHexDigitLower g1 && isHexDigitLower g2
  | _ => false

/-- `PyVmomiHelper.is_valid_mac_addr`: `re.match` anchored at the start,
with the trailing `$` also accepting one final newline (Python `$`
semantics without `re.MULTILINE`). -/
def is_valid_mac_addr (s : String) : Bool :=
  macCoreMatches s.toList ||
    (match s.toList.getLast? with
     | some c => c == '\n' && macCoreMatches s.toList.dropLast
     | none => false)

/-- A device in the hardware list is a network adapter iff its class tag is
one of the six entries of `nic_device_type`. -/
def isNicDevice (d : Adapter) : Bool := nicTypeKeys.contains d.deviceType

/-- Index of the last device satisfying `p` (the Python loops overwrite
`nic_device` on every match and only break the inner type loop, so the
last matching device of the hardware list wins). -/
def lastNicIdx (p : Adapter → Bool) : List Adapter → Option Nat
  | [] => none
  | d :: rest =>
    match lastNicIdx p rest with
    | some j => some (j + 1)
    | none => if p d then some 0 else none

/-- `PyVmomiHelper.get_network_device_by_mac`, returning the index of the
matched device in the hardware list. -/
def get_network_device_by_mac (devices : List Adapter) (mac : String) : Option Nat :=
  lastNicIdx (fun d => isNicDevice d && d.macAddress == mac) devices

/-- `PyVmomiHelper.get_network_device_by_label`, returning the index of the
matched device. -/
def get_network_device_by_label (devices : List Adapter) (device_label : String) : Option Nat :=
  lastNicIdx (fun d => isNicDevice d && d.label == device_label) devices

/-- `PyVmomiHelper.get_network_devices_by_type`: indices of all devices of
the given class tag, in hardware-list order. -/
def get_network_devices_by_type (t : String) : List Adapter → List Nat
  | [] => []
  | d :: rest =>
    let tail := (get_network_devices_by_type t rest).map (· + 1)
    if d.deviceType == t then 0 :: tail else tail

/-- The fully materialized adapter description built by
`create_network_adapter` for an `Add` operation. -/
structure NewNic where
  deviceType : String
  summary : String
  deviceName : String
  startConnected : Bool
  allowGuestControl : Bool
  connected : Bool
  addressType : String
  macAddress : Option String
deriving DecidableEq, Repr

/-- `PyVmomiHelper.get_device_type`: fails unless the tag is truthy and one
of the six known tags; otherwise returns the device class (its tag). -/
def get_device_type (device_type : String) : Except PyError String :=
  if device_type != "" && nicTypeKeys.contains device_type then .ok device_type
  else .error (.failJson (.invalidNicType device_type))

/-- `PyVmomiHelper.create_network_adapter`.  `device_info['name']` is an
unconditional dict access, hence the `KeyError` arm. -/
def create_network_adapter (device_info : NetworkParam) : Except PyError NewNic :=
  (get_device_type (device_info.device_type.getD "vmxnet3")).bind (fun dt =>
    match device_info.name with
    | none => .error (.keyError "name")
    | some nm =>
      .ok { deviceType := dt
          , summary := nm
          , deviceName := nm
          , startConnected := device_info.start_connected.getD true
          , allowGuestControl := true
          , connected := device_info.connected.getD true
          , addressType := if device_info.manual_mac.isSome then "manual" else "generated"
          , macAddress := device_info.manual_mac })

/-- One entry of the `network_data` result, as built by
`get_network_facts`. -/
structure NicFacts where
  device_type : String
  label : String
  name : String
  mac_addr : String
  unit_number : Int
  wake_onlan : Bool
  allow_guest_ctl : Bool
  connected : Bool
  start_connected : Bool
deriving DecidableEq, Repr

/-- The `isinstance` chain of `get_network_facts`: display name of each
known device class, `none` for non-network devices (skipped). -/
def nicTypeFactsName (tag : String) : Option String :=
  if tag == "pcnet32" then some "PCNet32"
  else if tag == "vmxnet2" then some "VMXNET2"
  else if tag == "vmxnet3" then some "VMXNET3"
  else if tag == "e1000" then some "E1000"
  else if tag == "e1000e" then some "E1000E"
  else if tag == "sriov" then some "SriovEthernetCard"
  else none

/-- `PyVmomiHelper.get_network_facts`: index-keyed snapshot of every
network adapter; `nic_index` only advances on recognized adapters. -/
def get_network_facts (devices : List Adapter) : List (Nat × NicFacts) :=
  (devices.foldl
    (fun acc d =>
      match nicTypeFactsName d.deviceType with
      | some tn =>
        (acc.1 + 1, acc.2 ++ [(acc.1,
          { device_type := tn, label := d.label, name := d.summary,
            mac_addr := d.macAddress, unit_number := d.unitNumber,
            wake_onlan := d.wakeOnLanEnabled, allow_guest_ctl := d.allowGuestControl,
            connected := d.connected, start_connected := d.startConnected })])
      | none => acc)
    ((0 : Nat), ([] : List (Nat × NicFacts)))).2

/-- A distributed virtual portgroup in the datacenter scope, as consumed
by the VLAN branch of `sanitize_network_params`.  `vlanId` is `some` iff
`defaultPortConfig` has a `vlan` attribute whose `vlanId` is an int. -/
structure DistributedPortgroup where
  vlanId : Option Int
  name : String
  switchName : String
deriving DecidableEq, Repr

/-- The backend state consulted during validation: the outcome of
`get_network_by_name` (an external object lookup scoped to the configured
datacenter) and the datacenter's distributed portgroups. -/
structure Env where
  networkExists : String → Bool
  dvPortgroups : List DistributedPortgroup

/-- The `for dvp in dvps` loop of `sanitize_network_params`: first
portgroup matching by configured VLAN id, by switch name plus name, or by
name wins and its name replaces `network['name']`; no match is a
`fail_json`. -/
def resolveVlan (env : Env) (network : NetworkParam) (v : String) :
    Except PyError NetworkParam :=
  match env.dvPortgroups.find? (fun dvp =>
    (match dvp.vlanId with | some i => toString i == v | none => false)
    || (match network.dvswitch_name with
        | some sw => dvp.switchName == sw && dvp.name == v
        | none => false)
    || dvp.name == v) with
  | some dvp => .ok { network with name := some dvp.name }
  | none => .error (.failJson (.vlanNotExist v))

/-- The per-entry body of `PyVmomiHelper.sanitize_network_params`.  The
final MAC check mirrors Python evaluation order: when the guard fires, the
failure message interpolates `network['mac']` then `network['manual_mac']`
unconditionally, raising `KeyError` on whichever key is absent. -/
def sanitizeOne (env : Env) (network : NetworkParam) : Except PyError NetworkParam :=
  if !(match network.state with
       | some s => nicValidStates.contains (pyLower s)
       | none => false) then
    .error (.failJson (.invalidState (network.state.getD "")))
  else if pyLower (network.state.getD "") == "new"
      && !network.name.isSome && !network.vlan.isSome then
    .error (.failJson .missingNetworkName)
  else
    (if network.name.isSome && !(env.networkExists (network.name.getD "")) then
       .error (.failJson (.networkNotExist (network.name.getD "")))
     else if network.vlan.isSome then
       resolveVlan env network (network.vlan.getD "")
     else .ok network).bind (fun network =>
      if network.device_type.isSome
          && !(nicTypeKeys.contains (network.device_type.getD "")) then
        .error (.failJson (.invalidDeviceType (network.device_type.getD "")))
      else
        match network.mac, network.manual_mac with
        | some m, some mm =>
          if !(is_valid_mac_addr m) || !(is_valid_mac_addr mm) then
            .error (.failJson (.invalidMacValue m mm))
          else .ok network
        | some m, none =>
          if !(is_valid_mac_addr m) then .error (.keyError "manual_mac")
          else .ok network
        | none, some mm =>
          if !(is_valid_mac_addr mm) then .error (.keyError "mac")
          else .ok network
        | none, none => .ok network)

/-- `PyVmomiHelper.sanitize_network_params` over the whole `networks`
parameter (first failure aborts the run). -/
def sanitize_network_params (env : Env) (networks : List NetworkParam) :
    Except PyError (List NetworkParam) :=
  networks.mapM (sanitizeOne env)

/-- `vim.vm.device.VirtualDeviceSpec.Operation`. -/
inductive SpecOp where
  | add
  | edit
  | remove
deriving DecidableEq, Repr

/-- One element of `config_spec.deviceChange`.  For edit/remove,
`deviceIndex` is the hardware-list index of the referenced (shared,
mutable) device; for add, `newDevice` is the built description. -/
structure DeviceSpec where
  op : SpecOp
  deviceIndex : Option Nat
  newDevice : Option NewNic
deriving DecidableEq, Repr

/-- The mutable helper state during `get_network_config_spec`: the shared
device objects, the instance-wide `change_detected` flag, and the
accumulated `deviceChange` list. -/
structure PlanState where
  devices : List Adapter
  change_detected : Bool
  deviceChange : List DeviceSpec
deriving DecidableEq, Repr

/-- The virtual machine as seen by the planner: its hardware device list
and `runtime.powerState`. -/
structure VM where
  devices : List Adapter
  powerState : String
deriving DecidableEq, Repr

/-- Lines 380-390 of the module: `mac` lookup first, `label` only if the
list is still empty, `device_type` only if it is still empty. -/
def match_network_device (devices : List Adapter) (network : NetworkParam) : List Nat :=
  let l1 : List Nat :=
    match network.mac with
    | some m =>
      match get_network_device_by_mac devices m with
      | some i => [i]
      | none => []
    | none => []
  let l2 : List Nat :=
    if network.label.isSome && l1.isEmpty then
      match get_network_device_by_label devices (network.label.getD "") with
      | some i => [i]
      | none => []
    else l1
  if network.device_type.isSome && l2.isEmpty then
    get_network_devices_by_type (network.device_type.getD "") devices
  else l2

/-- Writes the (possibly mutated) device back and appends the edit spec
iff the instance-wide `change_detected` flag is set at that point. -/
def finishEdit (st : PlanState) (idx : Nat) (d : Adapter) (c : Bool) : PlanState :=
  { devices := st.devices.set idx d
  , change_detected := c
  , deviceChange :=
      if c then st.deviceChange ++ [⟨.edit, some idx, none⟩] else st.deviceChange }

/-- The `state == 'present'` body of `get_network_config_spec` for one
matched device: field-by-field comparison against (and in-place mutation
of) the shared device object, with the powered-off precondition guarding a
MAC reassignment. -/
def editDevice (power : String) (network : NetworkParam) (st : PlanState) (idx : Nat) :
    Except PyError PlanState :=
  match st.devices[idx]? with
  | none => .ok st
  | some d0 =>
    let r1 : Adapter × Bool :=
      match network.start_connected with
      | some sc =>
        if d0.startConnected != sc then ({ d0 with startConnected := sc }, true)
        else (d0, st.change_detected)
      | none => (d0, st.change_detected)
    let r2 : Adapter × Bool :=
      match network.connected with
      | some cv =>
        if r1.1.connected != cv then ({ r1.1 with connected := cv }, true)
        else (r1.1, r1.2)
      | none => (r1.1, r1.2)
    let r3 : Adapter × Bool :=
      match network.name with
      | some nm =>
        if r2.1.summary != nm then ({ r2.1 with summary := nm }, true)
        else (r2.1, r2.2)
      | none => (r2.1, r2.2)
    match network.manual_mac with
    | some mm =>
      if r3.1.macAddress != mm then
        if power != "poweredOff" then .error (.failJson .powerStateNotOff)
        else .ok (finishEdit st idx { r3.1 with addressType := "manual", macAddress := mm } true)
      else .ok (finishEdit st idx r3.1 r3.2)
    | none => .ok (finishEdit st idx r3.1 r3.2)

/-- One iteration of the `for network in network_list` loop of
`get_network_config_spec`. -/
def planEntry (power : String) (st : PlanState) (network : NetworkParam) :
    Except PyError PlanState :=
  match network.state with
  | none => .error (.keyError "state")
  | some s0 =>
    if pyLower s0 == "new" then
      (create_network_adapter network).map (fun nic =>
        { st with change_detected := true
                , deviceChange := st.deviceChange ++ [⟨.add, none, some nic⟩] })
    else
      let nicIdxs := match_network_device st.devices network
      if !network.mac.isSome && !network.label.isSome && !network.device_type.isSome then
        .error (.failJson .missingMatchKey)
      else if !nicIdxs.isEmpty then
        if pyLower s0 == "present" then
          nicIdxs.foldlM (editDevice power network) st
        else if pyLower s0 == "absent" then
          .ok (nicIdxs.foldl
            (fun acc idx =>
              { acc with change_detected := true
                       , deviceChange := acc.deviceChange ++ [⟨.remove, some idx, none⟩] }) st)
        else .ok st
      else .error (.failJson (.adapterNotFound network))

/-- `PyVmomiHelper.get_network_config_spec`: the helper starts each run
with `change_detected = False` and an empty `deviceChange`. -/
def get_network_config_spec (vm : VM) (network_list : List NetworkParam) :
    Except PyError PlanState :=
  network_list.foldlM (planEntry vm.powerState)
    { devices := vm.devices, change_detected := false, deviceChange := [] }

/-- How the external submission collaborator (`ReconfigVM_Task` plus
`wait_for_task`) terminates: one of the two caught pyVmomi faults, an
asynchronous task error, or success. -/
inductive TaskOutcome where
  | invalidDeviceSpecFault (m : String)
  | restrictedVersionFault (m : String)
  | errorState (m : String)
  | success
deriving DecidableEq, Repr

/-- The full external environment of one run: validation-time backend
state, the submission outcome, and the refreshed device view of `vm_obj`
after a successful task (both external collaborators). -/
structure RunEnv extends Env where
  taskOutcome : TaskOutcome
  postDevices : List Adapter

/-- The `results` dict of `reconfigure_vm_network`, plus `submittedSpec`:
the `deviceChange` list that was handed to `ReconfigVM_Task`, or `none`
when no submission was attempted (facts-only branch). -/
structure RunResult where
  changed : Bool
  failed : Bool
  network_data : Option (List (Nat × NicFacts))
  msg : Option String
  submittedSpec : Option (List DeviceSpec)
deriving DecidableEq, Repr

/-- `PyVmomiHelper.reconfigure_vm_network`: sanitize first, then either
the facts-only branch (requested, or empty sanitized list) or plan,
submit, and report.  An `Except.error` result models `module.fail_json`
(or an uncaught `KeyError`) terminating the run before or instead of any
later step; in particular an error raised during planning precedes the
`ReconfigVM_Task` call. -/
def reconfigure_vm_network (env : RunEnv) (vm : VM)
    (gather_network_facts : Option Bool) (networks : List NetworkParam) :
    Except PyError RunResult :=
  (sanitize_network_params env.toEnv networks).bind (fun network_list =>
    if (gather_network_facts.isSome && gather_network_facts.getD false)
        || network_list.isEmpty then
      .ok { changed := false, failed := false
          , network_data := some (get_network_facts vm.devices), msg := none
          , submittedSpec := none }
    else
      (get_network_config_spec vm network_list).bind (fun st =>
        match env.taskOutcome with
        | .invalidDeviceSpecFault m => .error (.failJson (.invalidDeviceSpecFault m))
        | .restrictedVersionFault m => .error (.failJson (.restrictedVersionFault m))
        | .errorState m =>
          .ok { changed := st.change_detected, failed := true, network_data := none
              , msg := some m, submittedSpec := some st.deviceChange }
        | .success =>
          .ok { changed := st.change_detected, failed := false
              , network_data := some (get_network_facts env.postDevices), msg := none
              , submittedSpec := some st.deviceChange }))

/-- The change set handed to the backend by a run, `none` if the run
failed before submission or took the facts-only branch. -/
def runSubmitted : Except PyError RunResult → Option (List DeviceSpec)
  | .ok r => r.submittedSpec
  | .error _ => none

/-- Modelled from the spec: the variant planner described by section 5 of
the design document, in which the adapter directory is built once from
the device list taken at the start of planning and every entry's
field-by-field comparison is made against that ORIGINAL snapshot rather
than against devices as mutated by earlier entries' pending edits.
Pending writes still accumulate on the threaded device list.  This
definition exists only to settle the refinement claim about the
comparison baseline; the code authority is `editDevice` above. -/
def editDeviceSnapshot (snapshot : List Adapter) (power : String) (network : NetworkParam)
    (st : PlanState) (idx : Nat) : Except PyError PlanState :=
  match snapshot[idx]?, st.devices[idx]? with
  | some d0, some w0 =>
    let r1 : Adapter × Bool :=
      match network.start_connected with
      | some sc =>
        if d0.startConnected != sc then ({ w0 with startConnected := sc }, true)
        else (w0, st.change_detected)
      | none => (w0, st.change_detected)
    let r2 : Adapter × Bool :=
      match network.connected with
      | some cv =>
        if d0.connected != cv then ({ r1.1 with connected := cv }, true)
        else (r1.1, r1.2)
      | none => (r1.1, r1.2)
    let r3 : Adapter × Bool :=
      match network.name with
      | some nm =>
        if d0.summary != nm then ({ r2.1 with summary := nm }, true)
        else (r2.1, r2.2)
      | none => (r2.1, r2.2)
    match network.manual_mac with
    | some mm =>
      if d0.macAddress != mm then
        if power != "poweredOff" then .error (.failJson .powerStateNotOff)
        else .ok (finishEdit st idx { r3.1 with addressType := "manual", macAddress := mm } true)
      else .ok (finishEdit st idx r3.1 r3.2)
    | none => .ok (finishEdit st idx r3.1 r3.2)
  | _, _ => .ok st

/-- Modelled from the spec: per-entry step of the snapshot-baseline
variant planner (matching also runs against the fixed snapshot directory
of section 4.3). -/
def planEntrySnapshot (snapshot : List Adapter) (power : String) (st : PlanState)
    (network : NetworkParam) : Except PyError PlanState :=
  match network.state with
  | none => .error (.keyError "state")
  | some s0 =>
    if pyLower s0 == "new" then
      (create_network_adapter network).map (fun nic =>
        { st with change_detected := true
                , deviceChange := st.deviceChange ++ [⟨.add, none, some nic⟩] })
    else
      let nicIdxs := match_network_device snapshot network
      if !network.mac.isSome && !network.label.isSome && !network.device_type.isSome then
        .error (.failJson .missingMatchKey)
      else if !nicIdxs.isEmpty then
        if pyLower s0 == "present" then
          nicIdxs.foldlM (editDeviceSnapshot snapshot power network) st
        else if pyLower s0 == "absent" then
          .ok (nicIdxs.foldl
            (fun acc idx =>
              { acc with change_detected := true
                       , deviceChange := acc.deviceChange ++ [⟨.remove, some idx, none⟩] }) st)
        else .ok st
      else .error (.failJson (.adapterNotFound network))

/-- Modelled from the spec: the snapshot-baseline planner over a whole
run. -/
def get_network_config_spec_snapshot (vm : VM) (network_list : List NetworkParam) :
    Except PyError PlanState :=
  network_list.foldlM (planEntrySnapshot vm.devices vm.powerState)
    { devices := vm.devices, change_detected := false, deviceChange := [] }

/-! Helper lemmas shared by the claim proofs. -/

theorem list_set_self {α : Type} (l : List α) (i : Nat) (a : α)
    (h : l[i]? = some a) : l.set i a = l := by
  induction l generalizing i with
  | nil => simp at h
  | cons x xs ih =>
    cases i with
    | zero => simp at h; simp [h]
    | succ j => simp at h; simp [List.set, ih j h]

instance instDecEqExcept {ε α : Type} [DecidableEq ε] [DecidableEq α] :
    DecidableEq (Except ε α) := fun x y =>
  match x, y with
  | .error e1, .error e2 =>
    if h : e1 = e2 then .isTrue (by rw [h]) else .isFalse (fun hh => h (by cases hh; rfl))
  | .error _, .ok _ => .isFalse (fun hh => Except.noConfusion hh)
  | .ok _, .error _ => .isFalse (fun hh => Except.noConfusion hh)
  | .ok a1, .ok a2 =>
    if h : a1 = a2 then .isTrue (by rw [h]) else .isFalse (fun hh => h (by cases hh; rfl))

theorem except_ok_bind {ε α β : Type} (a : α) (f : α → Except ε β) :
    (Except.ok a : Except ε α).bind f = f a := rfl

theorem except_error_bind {ε α β : Type} (e : ε) (f : α → Except ε β) :
    (Except.error e : Except ε α).bind f = .error e := rfl

theorem except_ok_map {ε α β : Type} (a : α) (f : α → β) :
    (Except.ok a : Except ε α).map f = .ok (f a) := rfl

theorem foldlM_singleton {α β : Type} (f : β → α → Except PyError β) (b : β) (a : α) :
    [a].foldlM f b = f b a := by
  rw [List.foldlM_cons]
  cases hf : f b a with
  | error e => rfl
  | ok b1 => rfl

theorem foldlM_pair {α β : Type} (f : β → α → Except PyError β) (b : β) (a1 a2 : α) :
    [a1, a2].foldlM f b = (f b a1).bind (fun b1 => f b1 a2) := by
  rw [List.foldlM_cons]
  cases hf : f b a1 with
  | error e => rfl
  | ok b1 => exact foldlM_singleton f b1 a2

theorem foldlM_ok_const {α β : Type} (f : β → α → Except PyError β) (st : β)
    (L : List α) (h : ∀ a ∈ L, f st a = .ok st) : L.foldlM f st = .ok st := by
  induction L with
  | nil => rfl
  | cons x xs ih =>
    have hx := h x (by simp)
    rw [List.foldlM_cons, hx]
    show xs.foldlM f st = .ok st
    exact ih (fun a ha => h a (by simp [ha]))

theorem foldlM_append_except {α β : Type} (f : β → α → Except PyError β)
    (l1 l2 : List α) (b : β) :
    (l1 ++ l2).foldlM f b = (l1.foldlM f b).bind (fun b2 => l2.foldlM f b2) := by
  induction l1 generalizing b with
  | nil => rfl
  | cons x xs ih =>
    rw [List.cons_append, List.foldlM_cons, List.foldlM_cons]
    cases hfx : f b x with
    | error e => rfl
    | ok b1 => exact ih b1

theorem match_network_device_no_keys (devices : List Adapter) (n : NetworkParam)
    (hm : n.mac = none) (hl : n.label = none) (hd : n.device_type = none) :
    match_network_device devices n = [] := by
  simp [match_network_device, hm, hl, hd]

/-! Concrete fixtures used by counterexamples and witnesses. -/

/-- A powered-on VM's single adapter: an e1000 card on "VM Network". -/
def adFix : Adapter :=
  { macAddress := "00:50:56:aa:bb:cc", label := "Network adapter 1",
    deviceType := "e1000", summary := "VM Network", connected := true,
    startConnected := true, addressType := "generated", unitNumber := 7,
    wakeOnLanEnabled := false, allowGuestControl := true }

/-- Environment where every named network exists and submission succeeds. -/
def envFix : RunEnv :=
  { networkExists := fun _ => true, dvPortgroups := [],
    taskOutcome := .success, postDevices := [adFix] }

def vmFix : VM := { devices := [adFix], powerState := "poweredOn" }

/-- The adapter description `create_network_adapter` builds for a bare
`state=new, name="VM Network"` entry. -/
def addedNicFix : NewNic :=
  { deviceType := "vmxnet3", summary := "VM Network", deviceName := "VM Network",
    startConnected := true, allowGuestControl := true, connected := true,
    addressType := "generated", macAddress := none }

def entryNewFix : NetworkParam := { state := some "new", name := some "VM Network" }

/-- A `present` entry matching `adFix` by MAC whose only requested field
already equals the current state (a no-op entry). -/
def entryNoopFix : NetworkParam :=
  { state := some "present", mac := some "00:50:56:aa:bb:cc", connected := some true }

/-! Claim theorems. -/

/-- Claim C8: the MAC syntax validator accepts the two six-octet
single-delimiter forms and rejects a five-octet or mixed-delimiter
string, exactly as the spec's four sample evaluations state. -/
theorem C8_mac_validation :
    is_valid_mac_addr "00:50:56:11:22:33" = true
    ∧ is_valid_mac_addr "00-50-56-11-22-33" = true
    ∧ is_valid_mac_addr "00:50:56:11:22" = false
    ∧ is_valid_mac_addr "00:50-56:11:22:33" = false :=
  ⟨rfl, rfl, rfl, rfl⟩

/-- Claim C1, counterexample: in a run whose first entry is effective
(`state=new`), the following `present` entry whose matched adapter differs
in zero comparable fields (the device list comes back unchanged) still has
its Edit operation appended to `deviceChange` and submitted, because
`change_detected` is instance-wide rather than per-operation.  This
refutes "it is never added to the submitted change set, regardless of what
other entries in the same run changed". -/
theorem C1_counterexample :
    get_network_config_spec vmFix [entryNewFix, entryNoopFix] =
      .ok { devices := [adFix], change_detected := true,
            deviceChange := [⟨.add, none, some addedNicFix⟩, ⟨.edit, some 0, none⟩] }
    ∧ runSubmitted (reconfigure_vm_network envFix vmFix (some false)
        [entryNewFix, entryNoopFix]) =
      some [⟨.add, none, some addedNicFix⟩, ⟨.edit, some 0, none⟩] :=
  ⟨by decide, by decide⟩

/-- Claim C2: facts-only mode does not ignore the desired list; the code
runs `sanitize_network_params` before the facts-only gate, so a run with
`gather_network_facts=true` and a desired entry with an invalid state
fails with the validation error instead of returning adapter facts with
`changed=false` and `failed=false` (the module's own documentation says
other parameters are ignored in this mode). -/
theorem C2_failing_run :
    reconfigure_vm_network envFix vmFix (some true) [{ state := some "bogus" }] =
      .error (.failJson (.invalidState "bogus")) :=
  by decide

/-- Claim C3, counterexample: first entry (matched by MAC) sets
`connected := false`; the second entry (matched by device type on the same
adapter) requests `connected := true`, the adapter's ORIGINAL value.  The
code compares against the value written by the first entry's pending edit
and rewrites the field back (final device list equals the original), while
the snapshot-baseline planner the claim describes sees no difference for
the second entry and leaves the pending `connected := false` in place.
The two planners disagree, refuting the claim that comparisons are made
against the original snapshot. -/
theorem C3_counterexample :
    get_network_config_spec vmFix
      [{ state := some "present", mac := some "00:50:56:aa:bb:cc", connected := some false },
       { state := some "present", device_type := some "e1000", connected := some true }] =
      .ok { devices := [adFix], change_detected := true,
            deviceChange := [⟨.edit, some 0, none⟩, ⟨.edit, some 0, none⟩] }
    ∧ get_network_config_spec_snapshot vmFix
      [{ state := some "present", mac := some "00:50:56:aa:bb:cc", connected := some false },
       { state := some "present", device_type := some "e1000", connected := some true }] =
      .ok { devices := [{ adFix with connected := false }], change_detected := true,
            deviceChange := [⟨.edit, some 0, none⟩, ⟨.edit, some 0, none⟩] }
    ∧ ({ devices := [adFix], change_detected := true,
         deviceChange := [⟨.edit, some 0, none⟩, ⟨.edit, some 0, none⟩] } : PlanState) ≠
      { devices := [{ adFix with connected := false }], change_detected := true,
        deviceChange := [⟨.edit, some 0, none⟩, ⟨.edit, some 0, none⟩] } :=
  ⟨by decide, by decide, by decide⟩

/-- Claim C4, counterexample: an `absent` entry whose `mac` matches no
adapter but whose `label` matches the only adapter does NOT fail with
AdapterNotFound; the matcher falls through to the label key and the run
plans a Remove for that adapter (as the module's own documentation
describes). -/
theorem C4_counterexample :
    get_network_config_spec vmFix
      [{ state := some "absent", mac := some "00:50:56:ff:ff:ff",
         label := some "Network adapter 1" }] =
      .ok { devices := [adFix], change_detected := true,
            deviceChange := [⟨.remove, some 0, none⟩] } :=
  by decide

/-- A second adapter on the same VM: an e1000e card with its own MAC and
label, used where two distinct adapters are needed. -/
def adFix2 : Adapter :=
  { macAddress := "00:50:56:dd:ee:ff", label := "Network adapter 2",
    deviceType := "e1000e", summary := "VM Network", connected := true,
    startConnected := true, addressType := "generated", unitNumber := 8,
    wakeOnLanEnabled := false, allowGuestControl := true }

/-- Claim C9: when the `mac` lookup yields an adapter, the matcher returns
exactly that adapter and the `label` key is never consulted, even if the
label would have matched a different adapter. -/
theorem C9_mac_precedence (devices : List Adapter) (n : NetworkParam) (m lb : String)
    (iA iB : Nat) (hm : n.mac = some m) (hl : n.label = some lb)
    (hA : get_network_device_by_mac devices m = some iA)
    (hB : get_network_device_by_label devices lb = some iB) :
    match_network_device devices n = [iA] := by
  simp [match_network_device, hm, hA, hl]

/-- Witness for C9: on a VM with two adapters, an entry whose `mac`
matches adapter index 1 and whose `label` matches adapter index 0 selects
index 1 only. -/
theorem C9_witness :
    match_network_device [adFix, adFix2]
      { state := some "present", mac := some "00:50:56:dd:ee:ff",
        label := some "Network adapter 1" } = [1] :=
  C9_mac_precedence [adFix, adFix2] _ "00:50:56:dd:ee:ff" "Network adapter 1" 1 0
    rfl rfl (by decide) (by decide)

theorem editDevice_error_power (power : String) (n : NetworkParam) (st : PlanState)
    (i : Nat) (e : PyError) (h : editDevice power n st i = .error e) :
    e = .failJson .powerStateNotOff := by
  simp only [editDevice] at h
  repeat' split at h
  all_goals first
    | exact Except.noConfusion h
    | exact (Except.error.inj h).symm

theorem foldlM_editDevice_error (power : String) (n : NetworkParam) (M : List Nat)
    (st : PlanState) (e : PyError)
    (h : M.foldlM (editDevice power n) st = .error e) :
    e = .failJson .powerStateNotOff := by
  induction M generalizing st with
  | nil => exact Except.noConfusion h
  | cons i M ih =>
    rw [List.foldlM_cons] at h
    cases he : editDevice power n st i with
    | error e1 =>
      rw [he] at h
      have h2 : e1 = e := Except.error.inj h
      exact h2 ▸ editDevice_error_power power n st i e1 he
    | ok st1 =>
      rw [he] at h
      exact ih st1 h

/-- Claim C4, amended: for a non-`new` entry whose `mac` is present but
matches no adapter, the matcher falls through to the `label` key and then
to the `device_type` key: a label hit selects that adapter, and with the
label absent or missing, a present `device_type` key selects all adapters
of that type; AdapterNotFound is raised exactly when every present key
yields no adapter (and never when some key matched). -/
theorem C4_amended_fallthrough (st : PlanState) (n : NetworkParam)
    (power m lb t s : String) (iB : Nat)
    (hstate : n.state = some s) (hsn : pyLower s ≠ "new")
    (hm : n.mac = some m)
    (hnone : get_network_device_by_mac st.devices m = none) :
    (n.label = some lb → get_network_device_by_label st.devices lb = some iB →
      match_network_device st.devices n = [iB])
    ∧ (n.label = none → n.device_type = some t →
      match_network_device st.devices n = get_network_devices_by_type t st.devices)
    ∧ (n.label = some lb → get_network_device_by_label st.devices lb = none →
      n.device_type = some t →
      match_network_device st.devices n = get_network_devices_by_type t st.devices)
    ∧ (match_network_device st.devices n = [] →
      planEntry power st n = .error (.failJson (.adapterNotFound n)))
    ∧ (match_network_device st.devices n ≠ [] →
      planEntry power st n ≠ .error (.failJson (.adapterNotFound n))) := by
  have hbeq : (pyLower s == "new") = false := by
    cases hbb : pyLower s == "new" with
    | false => rfl
    | true => exact absurd (eq_of_beq hbb) hsn
  refine ⟨?_, ?_, ?_, ?_, ?_⟩
  · intro hl hB
    simp [match_network_device, hm, hnone, hl, hB]
  · intro hl hdt
    simp [match_network_device, hm, hnone, hl, hdt]
  · intro hl hlnone hdt
    simp [match_network_device, hm, hnone, hl, hlnone, hdt]
  · intro hempty
    simp [planEntry, hstate, hbeq, hempty, hm]
  · intro hne hcontra
    have hisE : (match_network_device st.devices n).isEmpty = false := by
      cases hq : match_network_device st.devices n with
      | nil => exact absurd hq hne
      | cons a l => rfl
    simp only [planEntry, hstate] at hcontra
    split at hcontra
    · rename_i hc
      rw [hbeq] at hc
      exact Bool.noConfusion hc
    · split at hcontra
      · exact absurd hcontra (by simp)
      · split at hcontra
        · split at hcontra
          · have hpow := foldlM_editDevice_error power n _ st _ hcontra
            simp at hpow
          · split at hcontra
            · exact Except.noConfusion hcontra
            · exact Except.noConfusion hcontra
        · rename_i hc
          simp [hisE] at hc

/-- Witness for the amended C4: with one e1000 adapter, a mac-missing
entry with a matching label selects the adapter; a mac-missing entry with
only a device type selects by type; a mac-missing entry with no other key
fails with AdapterNotFound. -/
theorem C4_witness :
    match_network_device [adFix]
      { state := some "absent", mac := some "00:50:56:ff:ff:ff",
        label := some "Network adapter 1" } = [0]
    ∧ match_network_device [adFix]
      { state := some "absent", mac := some "00:50:56:ff:ff:ff",
        device_type := some "e1000" } = [0]
    ∧ planEntry "poweredOn"
        { devices := [adFix], change_detected := false, deviceChange := [] }
        { state := some "absent", mac := some "00:50:56:ff:ff:ff" } =
      .error (.failJson (.adapterNotFound
        { state := some "absent", mac := some "00:50:56:ff:ff:ff" })) :=
  ⟨(C4_amended_fallthrough { devices := [adFix], change_detected := false, deviceChange := [] }
      { state := some "absent", mac := some "00:50:56:ff:ff:ff",
        label := some "Network adapter 1" }
      "poweredOn" "00:50:56:ff:ff:ff" "Network adapter 1" "e1000" "absent" 0
      rfl (by decide) rfl (by decide)).1 rfl (by decide),
   ((C4_amended_fallthrough { devices := [adFix], change_detected := false, deviceChange := [] }
      { state := some "absent", mac := some "00:50:56:ff:ff:ff",
        device_type := some "e1000" }
      "poweredOn" "00:50:56:ff:ff:ff" "Network adapter 1" "e1000" "absent" 0
      rfl (by decide) rfl (by decide)).2.1 rfl rfl).trans (by decide),
   (C4_amended_fallthrough { devices := [adFix], change_detected := false, deviceChange := [] }
      { state := some "absent", mac := some "00:50:56:ff:ff:ff" }
      "poweredOn" "00:50:56:ff:ff:ff" "Network adapter 1" "e1000" "absent" 0
      rfl (by decide) rfl (by decide)).2.2.2.1 (by decide)⟩

/-- Claim C10: for an entry whose `manual_mac` is present but fails MAC
syntax validation while `mac` is absent, the validator's failure path
itself raises `KeyError('mac')` — the failure message unconditionally
interpolates `network['mac']` — instead of producing the structured
`fail_json` error. -/
theorem C10_keyerror_on_report (env : Env) (n : NetworkParam) (mm : String)
    (hstate : n.state = some "present") (hname : n.name = none)
    (hvlan : n.vlan = none) (hdt : n.device_type = none)
    (hmac : n.mac = none) (hmm : n.manual_mac = some mm)
    (hinv : is_valid_mac_addr mm = false) :
    sanitizeOne env n = .error (.keyError "mac") := by
  have h2 : (pyLower "present" == "new") = false := rfl
  simp [sanitizeOne, hstate, hname, hvlan, hdt, hmac, hmm, hinv, h2]
  rw [if_pos (by decide : pyLower "present" ∈ nicValidStates)]
  have hb : ∀ (f : NetworkParam → Except PyError NetworkParam),
      (Except.ok n).bind f = f n := fun _ => rfl
  rw [hb]
  simp [hdt, hmac, hmm, hinv]

/-- Witness for C10: a concrete `present` entry with the malformed
`manual_mac` value `"00:50:56"` and no `mac` key raises `KeyError`. -/
theorem C10_witness :
    sanitizeOne envFix.toEnv
      { state := some "present", manual_mac := some "00:50:56" } =
      .error (.keyError "mac") :=
  C10_keyerror_on_report envFix.toEnv _ "00:50:56" rfl rfl rfl rfl rfl rfl (by decide)

/-- Claim C5: a run containing an `absent` entry whose `mac` matches no
adapter of the current device state (and carrying no other match key)
fails with AdapterNotFound, whatever entries preceded or follow it; the
`Except.error` result shows the run aborts inside planning, before the
`ReconfigVM_Task` submission that only happens on the `.ok` path. -/
theorem C5_absent_not_found (env : RunEnv) (vm : VM) (gnf : Option Bool)
    (ns1 ns2 : List NetworkParam) (n : NetworkParam) (m : String) (st : PlanState)
    (hsan : sanitize_network_params env.toEnv (ns1 ++ n :: ns2) = .ok (ns1 ++ n :: ns2))
    (hg : gnf = none ∨ gnf = some false)
    (hpre : ns1.foldlM (planEntry vm.powerState)
      { devices := vm.devices, change_detected := false, deviceChange := [] } = .ok st)
    (hstate : n.state = some "absent") (hmac : n.mac = some m)
    (hnf : get_network_device_by_mac st.devices m = none)
    (hlb : n.label = none) (hdt : n.device_type = none) :
    reconfigure_vm_network env vm gnf (ns1 ++ n :: ns2) =
      .error (.failJson (.adapterNotFound n)) := by
  have hmatch : match_network_device st.devices n = [] := by
    simp [match_network_device, hmac, hnf, hlb, hdt]
  have hplan : planEntry vm.powerState st n = .error (.failJson (.adapterNotFound n)) := by
    simp [planEntry, hstate, hmatch, hmac, (by decide : pyLower "absent" = "absent"),
      (by decide : ("absent" : String) ≠ "new")]
  have hspec : get_network_config_spec vm (ns1 ++ n :: ns2) =
      .error (.failJson (.adapterNotFound n)) := by
    rw [get_network_config_spec, foldlM_append_except, hpre, except_ok_bind,
      List.foldlM_cons, hplan]
    rfl
  have hnem : (ns1 ++ n :: ns2).isEmpty = false := by cases ns1 <;> rfl
  rcases hg with hg | hg <;>
    rw [reconfigure_vm_network, hsan, except_ok_bind, hg] <;>
    simp [hnem, hspec, except_error_bind]

/-- A concrete `absent` entry whose MAC matches no adapter. -/
def entryAbsFix : NetworkParam := { state := some "absent", mac := some "00:50:56:44:55:77" }

/-- Witness for C5: the spec's end-to-end example fails with
AdapterNotFound and produces no result (hence no submission). -/
theorem C5_witness :
    reconfigure_vm_network envFix vmFix (some false) [entryAbsFix] =
      .error (.failJson (.adapterNotFound entryAbsFix)) :=
  C5_absent_not_found envFix vmFix (some false) [] [] entryAbsFix "00:50:56:44:55:77"
    { devices := [adFix], change_detected := false, deviceChange := [] }
    (by decide) (Or.inr rfl) rfl rfl rfl (by decide) rfl rfl

/-- Claim C6: a `present` entry matched by MAC whose `manual_mac` differs
from the adapter's current MAC fails during planning with the power-state
error whenever the VM is not exactly poweredOff; when the VM is
poweredOff, the MAC is reassigned and `addressType` is set to manual. -/
theorem C6_mac_change_requires_poweroff (d : Adapter) (n : NetworkParam)
    (mm power : String) (hnic : isNicDevice d = true)
    (hstate : n.state = some "present") (hmac : n.mac = some d.macAddress)
    (hmm : n.manual_mac = some mm) (hne : d.macAddress ≠ mm)
    (hsc : n.start_connected = none) (hc : n.connected = none) (hn : n.name = none) :
    (power ≠ "poweredOff" →
      get_network_config_spec { devices := [d], powerState := power } [n] =
        .error (.failJson .powerStateNotOff))
    ∧ get_network_config_spec { devices := [d], powerState := "poweredOff" } [n] =
        .ok { devices := [{ d with addressType := "manual", macAddress := mm }],
              change_detected := true, deviceChange := [⟨.edit, some 0, none⟩] } := by
  have hmatch : match_network_device [d] n = [0] := by
    simp [match_network_device, hmac, get_network_device_by_mac, lastNicIdx, hnic]
  have hbne : (d.macAddress != mm) = true := by simp [bne, hne]
  constructor
  · intro hp
    have hpb : (power != "poweredOff") = true := by simp [bne, hp]
    simp [get_network_config_spec, foldlM_singleton, planEntry, hstate, hmatch, hmac,
      editDevice, hsc, hc, hn, hmm, hbne, hpb, (by decide : pyLower "present" = "present"),
      (by decide : ("present" : String) ≠ "new")]
  · simp [get_network_config_spec, foldlM_singleton, planEntry, hstate, hmatch, hmac,
      editDevice, hsc, hc, hn, hmm, hbne, finishEdit,
      (by decide : pyLower "present" = "present"),
      (by decide : ("present" : String) ≠ "new")]

/-- A `present` entry requesting a MAC reassignment on `adFix`. -/
def entryMacFix : NetworkParam :=
  { state := some "present", mac := some "00:50:56:aa:bb:cc",
    manual_mac := some "00:50:56:11:22:33" }

/-- Witness for C6: the concrete reassignment fails on a poweredOn VM and
succeeds (manual address type, new MAC) on a poweredOff VM. -/
theorem C6_witness :
    get_network_config_spec { devices := [adFix], powerState := "poweredOn" }
      [entryMacFix] = .error (.failJson .powerStateNotOff)
    ∧ get_network_config_spec { devices := [adFix], powerState := "poweredOff" }
      [entryMacFix] =
      .ok { devices := [{ adFix with
              addressType := "manual", macAddress := "00:50:56:11:22:33" }],
            change_detected := true, deviceChange := [⟨.edit, some 0, none⟩] } :=
  ⟨(C6_mac_change_requires_poweroff adFix entryMacFix "00:50:56:11:22:33" "poweredOn"
      (by decide) rfl rfl rfl (by decide) rfl rfl rfl).1 (by decide),
   (C6_mac_change_requires_poweroff adFix entryMacFix "00:50:56:11:22:33" "poweredOn"
      (by decide) rfl rfl rfl (by decide) rfl rfl rfl).2⟩

/-- Claim C7: a `new` entry produces exactly one Add operation; with no
device type given the planned type is vmxnet3; unspecified connectivity
flags default to true; the address mode is generated with no MAC when no
`manual_mac` was supplied, and manual with the supplied MAC verbatim when
one was. -/
theorem C7_new_entry (vm : VM) (n : NetworkParam) (nm mm : String)
    (hstate : n.state = some "new") (hname : n.name = some nm)
    (hdt : n.device_type = none) (hsc : n.start_connected = none)
    (hc : n.connected = none) :
    (n.manual_mac = none → get_network_config_spec vm [n] =
      .ok { devices := vm.devices, change_detected := true,
            deviceChange := [⟨.add, none, some
              { deviceType := "vmxnet3", summary := nm, deviceName := nm,
                startConnected := true, allowGuestControl := true, connected := true,
                addressType := "generated", macAddress := none }⟩] })
    ∧ (n.manual_mac = some mm → get_network_config_spec vm [n] =
      .ok { devices := vm.devices, change_detected := true,
            deviceChange := [⟨.add, none, some
              { deviceType := "vmxnet3", summary := nm, deviceName := nm,
                startConnected := true, allowGuestControl := true, connected := true,
                addressType := "manual", macAddress := some mm }⟩] }) := by
  constructor <;> intro hmm <;>
    simp [get_network_config_spec, foldlM_singleton, planEntry, hstate,
      create_network_adapter, hdt, hname, hsc, hc, hmm, except_ok_bind, except_ok_map,
      (by decide : pyLower "new" = "new"),
      (by decide : get_device_type "vmxnet3" = .ok "vmxnet3")]

/-- Witness for C7: the spec's end-to-end `new` example plans one Add of a
vmxnet3 adapter, connected and start-connected, with generated address. -/
theorem C7_witness :
    get_network_config_spec vmFix [entryNewFix] =
      .ok { devices := [adFix], change_detected := true,
            deviceChange := [⟨.add, none, some addedNicFix⟩] } :=
  (C7_new_entry vmFix entryNewFix "VM Network" "" rfl rfl rfl rfl rfl).1 rfl

/-- An entry is a no-op `present` entry for the given device state: it is
`present`, it matches at least one adapter, and every field it specifies
already equals the matched adapters' current values. -/
def noopPresentB (devices : List Adapter) (n : NetworkParam) : Bool :=
  n.state == some "present" &&
  !(match_network_device devices n).isEmpty &&
  (match_network_device devices n).all (fun i =>
    match devices[i]? with
    | some d =>
      (match n.start_connected with | some b => d.startConnected == b | none => true) &&
      (match n.connected with | some b => d.connected == b | none => true) &&
      (match n.name with | some s => d.summary == s | none => true) &&
      (match n.manual_mac with | some s => d.macAddress == s | none => true)
    | none => true)

theorem isSome_false_eq_none {α : Type} {o : Option α} (h : o.isSome = false) :
    o = none := by
  cases o with
  | none => rfl
  | some a => simp at h

theorem editDevice_noop (power : String) (n : NetworkParam) (devices : List Adapter)
    (dc : List DeviceSpec) (i : Nat)
    (h : ∀ d, devices[i]? = some d →
      (∀ b, n.start_connected = some b → d.startConnected = b) ∧
      (∀ b, n.connected = some b → d.connected = b) ∧
      (∀ s, n.name = some s → d.summary = s) ∧
      (∀ s, n.manual_mac = some s → d.macAddress = s)) :
    editDevice power n { devices := devices, change_detected := false, deviceChange := dc }
      i = .ok { devices := devices, change_detected := false, deviceChange := dc } := by
  unfold editDevice
  cases hd : devices[i]? with
  | none => rfl
  | some d =>
    obtain ⟨h1, h2, h3, h4⟩ := h d hd
    have hset : devices.set i d = devices := list_set_self devices i d hd
    cases hsc : n.start_connected with
    | some b1 =>
      have := h1 b1 hsc
      cases hcn : n.connected with
      | some b2 =>
        have := h2 b2 hcn
        cases hnm : n.name with
        | some s3 =>
          have := h3 s3 hnm
          cases hmm : n.manual_mac with
          | some s4 => have := h4 s4 hmm; simp_all [finishEdit]
          | none => simp_all [finishEdit]
        | none =>
          cases hmm : n.manual_mac with
          | some s4 => have := h4 s4 hmm; simp_all [finishEdit]
          | none => simp_all [finishEdit]
      | none =>
        cases hnm : n.name with
        | some s3 =>
          have := h3 s3 hnm
          cases hmm : n.manual_mac with
          | some s4 => have := h4 s4 hmm; simp_all [finishEdit]
          | none => simp_all [finishEdit]
        | none =>
          cases hmm : n.manual_mac with
          | some s4 => have := h4 s4 hmm; simp_all [finishEdit]
          | none => simp_all [finishEdit]
    | none =>
      cases hcn : n.connected with
      | some b2 =>
        have := h2 b2 hcn
        cases hnm : n.name with
        | some s3 =>
          have := h3 s3 hnm
          cases hmm : n.manual_mac with
          | some s4 => have := h4 s4 hmm; simp_all [finishEdit]
          | none => simp_all [finishEdit]
        | none =>
          cases hmm : n.manual_mac with
          | some s4 => have := h4 s4 hmm; simp_all [finishEdit]
          | none => simp_all [finishEdit]
      | none =>
        cases hnm : n.name with
        | some s3 =>
          have := h3 s3 hnm
          cases hmm : n.manual_mac with
          | some s4 => have := h4 s4 hmm; simp_all [finishEdit]
          | none => simp_all [finishEdit]
        | none =>
          cases hmm : n.manual_mac with
          | some s4 => have := h4 s4 hmm; simp_all [finishEdit]
          | none => simp_all [finishEdit]

theorem planEntry_noop (power : String) (devices : List Adapter)
    (dc : List DeviceSpec) (n : NetworkParam)
    (h : noopPresentB devices n = true) :
    planEntry power { devices := devices, change_detected := false, deviceChange := dc }
      n = .ok { devices := devices, change_detected := false, deviceChange := dc } := by
  simp only [noopPresentB, Bool.and_eq_true, beq_iff_eq, Bool.not_eq_true',
    List.all_eq_true] at h
  obtain ⟨⟨hstate, hmatch⟩, hall⟩ := h
  have hkeys : (!n.mac.isSome && !n.label.isSome && !n.device_type.isSome) = false := by
    cases hk : (!n.mac.isSome && !n.label.isSome && !n.device_type.isSome) with
    | false => rfl
    | true =>
      simp only [Bool.and_eq_true, Bool.not_eq_true'] at hk
      rw [match_network_device_no_keys devices n (isSome_false_eq_none hk.1.1)
        (isSome_false_eq_none hk.1.2) (isSome_false_eq_none hk.2)] at hmatch
      simp at hmatch
  have hfold : (match_network_device devices n).foldlM
      (editDevice power n)
      { devices := devices, change_detected := false, deviceChange := dc } =
      .ok { devices := devices, change_detected := false, deviceChange := dc } := by
    apply foldlM_ok_const
    intro i hi
    apply editDevice_noop
    intro d hd
    have := hall i hi
    rw [hd] at this
    refine ⟨?_, ?_, ?_, ?_⟩
    · intro b hb; rw [hb] at this; simp_all
    · intro b hb; rw [hb] at this; simp_all
    · intro s hs; rw [hs] at this; simp_all
    · intro s hs; rw [hs] at this; simp_all
  simp [planEntry, hstate, hkeys, hmatch, hfold,
    (by decide : pyLower "present" = "present"),
    (by decide : ("present" : String) ≠ "new")]
  intro hm hl hd
  rw [match_network_device_no_keys devices n hm hl hd] at hmatch
  simp at hmatch

/-- Claim C1, amended: a no-op `present` entry contributes no change of
its own — in a run where no change has been detected (the `change_detected`
flag is instance-wide, not per-operation), the planner leaves the state
untouched; consequently a run consisting only of such no-op entries plans
an empty change set and reports `changed=false` with `failed=false`. -/
theorem C1_noop_run (env : RunEnv) (vm : VM) (gnf : Option Bool)
    (ns : List NetworkParam)
    (hsan : sanitize_network_params env.toEnv ns = .ok ns)
    (hg : gnf = none ∨ gnf = some false) (hne : ns ≠ [])
    (hnoop : ∀ n ∈ ns, noopPresentB vm.devices n = true)
    (htask : env.taskOutcome = .success) :
    reconfigure_vm_network env vm gnf ns =
      .ok { changed := false, failed := false,
            network_data := some (get_network_facts env.postDevices), msg := none,
            submittedSpec := some [] } := by
  have hplan : get_network_config_spec vm ns =
      .ok { devices := vm.devices, change_detected := false, deviceChange := [] } :=
    foldlM_ok_const _ _ ns (fun n hn => planEntry_noop vm.powerState vm.devices [] n
      (hnoop n hn))
  have hnem : ns.isEmpty = false := by
    cases ns with
    | nil => exact absurd rfl hne
    | cons a l => rfl
  rcases hg with hg | hg <;>
    rw [reconfigure_vm_network, hsan, except_ok_bind, hg] <;>
    simp [hnem, hplan, except_ok_bind, htask]

/-- Witness for the amended C1: a run consisting of one no-op `present`
entry reports `changed=false` and submits an empty change set. -/
theorem C1_witness :
    reconfigure_vm_network envFix vmFix (some false) [entryNoopFix] =
      .ok { changed := false, failed := false,
            network_data := some (get_network_facts [adFix]), msg := none,
            submittedSpec := some [] } :=
  C1_noop_run envFix vmFix (some false) [entryNoopFix] (by decide) (Or.inr rfl)
    (by decide) (by decide) rfl

/-- Claim C3, amended: when two entries target the same adapter, the
second entry's field-by-field comparison is made against the adapter state
as already mutated by the first entry's pending edit (the planner mutates
the shared device object in place), not against the original snapshot.
With an adapter initially `connected = b`, a first entry writing
`connected := !b` and a second entry requesting `connected := b` (the
snapshot value), the code planner sees a difference against the mutated
value and writes the field back, ending with the original device; the
snapshot-baseline planner sees no difference for the second entry and
keeps the first entry's pending value — a genuinely different result. -/
theorem C3_amended_threaded (d : Adapter) (power : String) (n1 n2 : NetworkParam)
    (b : Bool) (hnic : isNicDevice d = true) (hb : d.connected = b)
    (h1s : n1.state = some "present") (h1m : n1.mac = some d.macAddress)
    (h1c : n1.connected = some (!b)) (h1sc : n1.start_connected = none)
    (h1n : n1.name = none) (h1mm : n1.manual_mac = none)
    (h2s : n2.state = some "present") (h2dt : n2.device_type = some d.deviceType)
    (h2m : n2.mac = none) (h2l : n2.label = none) (h2c : n2.connected = some b)
    (h2sc : n2.start_connected = none) (h2n : n2.name = none)
    (h2mm : n2.manual_mac = none) :
    get_network_config_spec { devices := [d], powerState := power } [n1, n2] =
      .ok { devices := [d], change_detected := true,
            deviceChange := [⟨.edit, some 0, none⟩, ⟨.edit, some 0, none⟩] }
    ∧ get_network_config_spec_snapshot { devices := [d], powerState := power } [n1, n2] =
      .ok { devices := [{ d with connected := !b }], change_detected := true,
            deviceChange := [⟨.edit, some 0, none⟩, ⟨.edit, some 0, none⟩] }
    ∧ ({ d with connected := !b } : Adapter) ≠ d := by
  subst hb
  have hm1 : match_network_device [d] n1 = [0] := by
    simp [match_network_device, h1m, get_network_device_by_mac, lastNicIdx, hnic]
  have hm2 : match_network_device [{ d with connected := !d.connected }] n2 = [0] := by
    simp [match_network_device, h2m, h2l, h2dt, get_network_devices_by_type]
  have hm2s : match_network_device [d] n2 = [0] := by
    simp [match_network_device, h2m, h2l, h2dt, get_network_devices_by_type]
  have hboolne : ∀ x : Bool, (x != !x) = true := by decide
  have hboolne2 : ∀ x : Bool, (!x != x) = true := by decide
  have hstep1 : planEntry power
      { devices := [d], change_detected := false, deviceChange := [] } n1 =
      .ok { devices := [{ d with connected := !d.connected }], change_detected := true,
            deviceChange := [⟨.edit, some 0, none⟩] } := by
    simp [planEntry, h1s, hm1, h1m, editDevice, h1sc, h1c, h1n, h1mm, finishEdit,
      foldlM_singleton, hboolne,
      (by decide : pyLower "present" = "present"),
      (by decide : ("present" : String) ≠ "new")]
  have hstep2 : planEntry power
      { devices := [{ d with connected := !d.connected }], change_detected := true,
        deviceChange := [⟨.edit, some 0, none⟩] } n2 =
      .ok { devices := [d], change_detected := true,
            deviceChange := [⟨.edit, some 0, none⟩, ⟨.edit, some 0, none⟩] } := by
    simp [planEntry, h2s, hm2, h2m, h2l, h2dt, editDevice, h2sc, h2c, h2n, h2mm,
      finishEdit, foldlM_singleton, hboolne2,
      (by decide : pyLower "present" = "present"),
      (by decide : ("present" : String) ≠ "new")]
  have hs1 : planEntrySnapshot [d] power
      { devices := [d], change_detected := false, deviceChange := [] } n1 =
      .ok { devices := [{ d with connected := !d.connected }], change_detected := true,
            deviceChange := [⟨.edit, some 0, none⟩] } := by
    simp [planEntrySnapshot, h1s, hm1, h1m, editDeviceSnapshot, h1sc, h1c, h1n, h1mm,
      finishEdit, hboolne,
      (by decide : pyLower "present" = "present"),
      (by decide : ("present" : String) ≠ "new")]
  have hs2 : planEntrySnapshot [d] power
      { devices := [{ d with connected := !d.connected }], change_detected := true,
        deviceChange := [⟨.edit, some 0, none⟩] } n2 =
      .ok { devices := [{ d with connected := !d.connected }], change_detected := true,
            deviceChange := [⟨.edit, some 0, none⟩, ⟨.edit, some 0, none⟩] } := by
    simp [planEntrySnapshot, h2s, hm2s, h2m, h2l, h2dt, editDeviceSnapshot, h2sc, h2c,
      h2n, h2mm, finishEdit,
      (by decide : pyLower "present" = "present"),
      (by decide : ("present" : String) ≠ "new")]
  refine ⟨?_, ?_, ?_⟩
  · rw [get_network_config_spec, foldlM_pair, hstep1, except_ok_bind, hstep2]
  · rw [get_network_config_spec_snapshot, foldlM_pair, hs1, except_ok_bind, hs2]
  · intro hcontra
    have hcon : ({ d with connected := !d.connected } : Adapter).connected =
        d.connected := by rw [hcontra]
    simp at hcon

/-- First entry of the C3 scenario: match `adFix` by MAC and disconnect. -/
def entryC3aFix : NetworkParam :=
  { state := some "present", mac := some "00:50:56:aa:bb:cc", connected := some false }

/-- Second entry of the C3 scenario: match the same adapter by device type
and request the snapshot's original `connected = true`. -/
def entryC3bFix : NetworkParam :=
  { state := some "present", device_type := some "e1000", connected := some true }

/-- Witness for the amended C3: on the concrete adapter the code planner
ends with the original device (second entry rewrote the field after
comparing against the mutated value) while the snapshot-baseline planner
keeps the disconnected state, and those results differ. -/
theorem C3_witness :
    get_network_config_spec { devices := [adFix], powerState := "poweredOn" }
      [entryC3aFix, entryC3bFix] =
      .ok { devices := [adFix], change_detected := true,
            deviceChange := [⟨.edit, some 0, none⟩, ⟨.edit, some 0, none⟩] }
    ∧ get_network_config_spec_snapshot { devices := [adFix], powerState := "poweredOn" }
      [entryC3aFix, entryC3bFix] =
      .ok { devices := [{ adFix with connected := false }], change_detected := true,
            deviceChange := [⟨.edit, some 0, none⟩, ⟨.edit, some 0, none⟩] }
    ∧ ({ adFix with connected := false } : Adapter) ≠ adFix :=
  C3_amended_threaded adFix "poweredOn" entryC3aFix entryC3bFix true (by decide) rfl
    rfl rfl rfl rfl rfl rfl rfl rfl rfl rfl rfl rfl rfl rfl

end VmwareGuestNetwork
